import Mathlib

/-!
Verification of the UDP packet logger in `src/main.rs`.

The program is a single linear loop: bind a UDP socket, create (truncating)
the log file `udp_packets.log`, then repeatedly `recv_from` into a fixed
1500 byte buffer, render `[timestamp] Received from addr: payload\n`, write
it to the file and flush, printing a status line to stdout on the way, or
print the receive error to stderr and continue.

The loop body is embedded as a pure `step` function on an explicit state.
The environment of one iteration (the receive result, the current wall clock
reading, and whether each fallible side effect succeeds) is an explicit
input.  Per the Rust standard library, `expect` on an `Err` panics, and the
`println!` and `eprintln!` macros panic when writing to stdout resp. stderr
fails; a panic in `main` terminates the process, which the embedding records
as the `fatal` outcome.
-/

namespace RustUdp

/-- Size of the receive buffer declared at line 38 (`let mut buf = [0; 1500]`). -/
def BUF_SIZE : Nat := 1500

/-- Unicode replacement character U+FFFD, substituted by
`String::from_utf8_lossy` for invalid byte sequences. -/
def repl : Char := Char.ofNat 0xFFFD

/-- Whether `b` is a UTF-8 continuation byte (`0x80 ..= 0xBF`). -/
def isCont (b : Nat) : Bool := 0x80 ≤ b && b ≤ 0xBF

/-- Valid range of the first continuation byte of a three byte sequence,
depending on the lead byte, as in the Rust core UTF-8 validator:
lead `0xE0` requires `0xA0 ..= 0xBF`, lead `0xED` requires `0x80 ..= 0x9F`
(excluding surrogates), other three byte leads require a plain continuation. -/
def isCont3First (b0 b1 : Nat) : Bool :=
  if b0 = 0xE0 then 0xA0 ≤ b1 && b1 ≤ 0xBF
  else if b0 = 0xED then 0x80 ≤ b1 && b1 ≤ 0x9F
  else isCont b1

/-- Valid range of the first continuation byte of a four byte sequence:
lead `0xF0` requires `0x90 ..= 0xBF`, lead `0xF4` requires `0x80 ..= 0x8F`
(codepoints up to U+10FFFF), other four byte leads require a continuation. -/
def isCont4First (b0 b1 : Nat) : Bool :=
  if b0 = 0xF0 then 0x90 ≤ b1 && b1 ≤ 0xBF
  else if b0 = 0xF4 then 0x80 ≤ b1 && b1 ≤ 0x8F
  else isCont b1

/-- One step of UTF-8 decoding on a nonempty byte list: the decoded scalar
(or `none` on an invalid maximal subpart) and how many bytes beyond the lead
byte are consumed.  The consumed counts on the error paths follow the Rust
core validator (substitution of maximal subparts): an invalid lead consumes
only itself, a valid prefix of a longer sequence followed by an invalid or
missing continuation consumes exactly that prefix. -/
def utf8Step : List Nat → Option Char × Nat
  | [] => (none, 0)
  | b0 :: r0 =>
    if b0 < 0x80 then (some (Char.ofNat b0), 0)
    else if b0 < 0xC2 then (none, 0)
    else if b0 ≤ 0xDF then
      match r0 with
      | b1 :: _ =>
        if isCont b1 then (some (Char.ofNat ((b0 - 0xC0) * 64 + (b1 - 0x80))), 1)
        else (none, 0)
      | [] => (none, 0)
    else if b0 ≤ 0xEF then
      match r0 with
      | b1 :: r1 =>
        if isCont3First b0 b1 then
          match r1 with
          | b2 :: _ =>
            if isCont b2 then
              (some (Char.ofNat ((b0 - 0xE0) * 4096 + (b1 - 0x80) * 64 + (b2 - 0x80))), 2)
            else (none, 1)
          | [] => (none, 1)
        else (none, 0)
      | [] => (none, 0)
    else if b0 ≤ 0xF4 then
      match r0 with
      | b1 :: r1 =>
        if isCont4First b0 b1 then
          match r1 with
          | b2 :: r2 =>
            if isCont b2 then
              match r2 with
              | b3 :: _ =>
                if isCont b3 then
                  (some (Char.ofNat ((b0 - 0xF0) * 262144 + (b1 - 0x80) * 4096 +
                    (b2 - 0x80) * 64 + (b3 - 0x80))), 3)
                else (none, 2)
              | [] => (none, 2)
            else (none, 1)
          | [] => (none, 1)
        else (none, 0)
      | [] => (none, 0)
    else (none, 0)

/-- Fuel based lossy decoding loop: each step consumes the lead byte plus
`(utf8Step l).2` further bytes and one unit of fuel, so fuel equal to the
length of the list is always enough.  Structural recursion on the fuel keeps
the function directly evaluable. -/
def utf8LossyAux : Nat → List Nat → List Char
  | _, [] => []
  | 0, _ :: _ => []
  | fuel + 1, b0 :: r0 =>
    ((utf8Step (b0 :: r0)).1.getD repl) :: utf8LossyAux fuel (r0.drop (utf8Step (b0 :: r0)).2)

/-- Embedding of `String::from_utf8_lossy` (line 62): decode the bytes,
replacing each invalid maximal subpart with one replacement character. -/
def utf8Lossy (l : List Nat) : List Char := utf8LossyAux l.length l

/-- Fuel based UTF-8 validation loop, aligned with `utf8LossyAux`. -/
def validUtf8Aux : Nat → List Nat → Bool
  | _, [] => true
  | 0, _ :: _ => false
  | fuel + 1, b0 :: r0 =>
    (utf8Step (b0 :: r0)).1.isSome && validUtf8Aux fuel (r0.drop (utf8Step (b0 :: r0)).2)

/-- Whether a byte list is valid UTF-8 (no decoding step fails). -/
def validUtf8 (l : List Nat) : Bool := validUtf8Aux l.length l

/-- Decimal digit character for a digit value below ten. -/
def digitChar (n : Nat) : Char := Char.ofNat (48 + n)

/-- Fuel based decimal rendering loop: each step divides the number by ten
and spends one unit of fuel, so any fuel above the number itself is enough. -/
def decDigitsAux : Nat → Nat → List Char
  | 0, _ => []
  | fuel + 1, n =>
    if n < 10 then [digitChar n]
    else decDigitsAux fuel (n / 10) ++ [digitChar (n % 10)]

/-- Decimal rendering of a natural number, most significant digit first,
as the Rust `Display` instances for integers produce. -/
def decDigits (n : Nat) : List Char := decDigitsAux (n + 1) n

/-- Zero padded decimal rendering to width `w`, as the zero padded numeric
fields of a chrono format string produce. -/
def padDec (w n : Nat) : List Char :=
  List.replicate (w - (decDigits n).length) '0' ++ decDigits n

/-- Reading of the local wall clock `chrono::Local::now()`, supplied by the
environment: calendar fields plus milliseconds. -/
structure Timestamp where
  year : Nat
  month : Nat
  day : Nat
  hour : Nat
  minute : Nat
  second : Nat
  millis : Nat
  deriving DecidableEq

/-- Rendering of `now.format("%Y-%m-%d %H:%M:%S%.3f")` (line 72): year
padded to four digits, all other calendar fields to two, a dot and the
milliseconds padded to three digits. -/
def fmtTimestampL (t : Timestamp) : List Char :=
  padDec 4 t.year ++ ('-' :: padDec 2 t.month) ++ ('-' :: padDec 2 t.day) ++
    (' ' :: padDec 2 t.hour) ++ (':' :: padDec 2 t.minute) ++
    (':' :: padDec 2 t.second) ++ ('.' :: padDec 3 t.millis)

/-- An IPv4 socket address, as `recv_from` on a socket bound to
`127.0.0.1:8080` reports for the datagram source. -/
structure SockAddrV4 where
  ip0 : Nat
  ip1 : Nat
  ip2 : Nat
  ip3 : Nat
  port : Nat
  deriving DecidableEq

/-- Rendering of a `SocketAddrV4` by its `Display` instance: the dotted
quad, a colon, and the port, all in decimal. -/
def fmtAddrL (a : SockAddrV4) : List Char :=
  decDigits a.ip0 ++ ('.' :: decDigits a.ip1) ++ ('.' :: decDigits a.ip2) ++
    ('.' :: decDigits a.ip3) ++ (':' :: decDigits a.port)

/-- The `log_entry` string built at lines 70 to 75:
`format!("[{}] Received from {}: {}\n", timestamp, src_addr, data_str)`. -/
def logEntry (now : Timestamp) (src : SockAddrV4) (dataStr : List Char) : String :=
  String.mk ('[' :: fmtTimestampL now ++ "] Received from ".data ++
    fmtAddrL src ++ ": ".data ++ dataStr ++ ['\n'])

/-- The console status line printed at line 65:
`println!("Received {} bytes from {}: {}", number_of_bytes, src_addr, data_str)`. -/
def statusLine (n : Nat) (src : SockAddrV4) (dataStr : List Char) : String :=
  String.mk ("Received ".data ++ decDigits n ++ " bytes from ".data ++
    fmtAddrL src ++ ": ".data ++ dataStr)

/-- The stderr line printed at line 89: `eprintln!("Error receiving packet: {}", e)`. -/
def errLine (e : String) : String := "Error receiving packet: " ++ e

/-- State carried across loop iterations: the 1500 byte receive buffer, the
content written to `udp_packets.log`, the flushed (durable) portion of that
content, and the lines printed to stdout and stderr. -/
structure LoopState where
  buf : List Nat
  written : String
  flushed : String
  stdout : List String
  stderr : List String
  deriving DecidableEq

/-- Result of one `socket.recv_from(&mut buf)` call, supplied by the
environment: a datagram (its full byte sequence) with its source address,
or an operating system error rendered as a message. -/
inductive RecvResult where
  | ok (datagram : List Nat) (src : SockAddrV4)
  | err (msg : String)
  deriving DecidableEq

/-- Environment of one loop iteration: the receive result, the wall clock
reading, and whether each fallible side effect (stdout print, stderr print,
file write, file flush) succeeds. -/
structure IterInput where
  recv : RecvResult
  now : Timestamp
  stdoutOk : Bool
  stderrOk : Bool
  writeOk : Bool
  flushOk : Bool
  deriving DecidableEq

/-- Result of one loop iteration: either the loop proceeds to the next
receive call with an updated state, or the process terminates with a panic
(as `expect` does on `Err`, and as `println!` and `eprintln!` do when the
console write fails), carrying the state at the point of the panic. -/
inductive Outcome where
  | next (s : LoopState)
  | fatal (msg : String) (s : LoopState)
  deriving DecidableEq

/-- State recorded in an outcome. -/
def outState : Outcome → LoopState
  | .next s => s
  | .fatal _ s => s

/-- Byte count returned by `recv_from` for a datagram: the datagram length,
capped at the buffer size (a longer datagram is truncated). -/
def numBytes (datagram : List Nat) : Nat := min datagram.length BUF_SIZE

/-- Effect of `recv_from` on the buffer: the first `numBytes` entries become
the (possibly truncated) datagram, the rest of the buffer keeps its residual
contents from earlier iterations. -/
def recvIntoBuf (datagram buf : List Nat) : List Nat :=
  datagram.take BUF_SIZE ++ buf.drop (numBytes datagram)

/-- The slice `received_data = &buf[..number_of_bytes]` of line 53, taken
from the buffer just written by `recv_from`. -/
def receivedData (datagram buf : List Nat) : List Nat :=
  (recvIntoBuf datagram buf).take (numBytes datagram)

/-- One iteration of the `loop` at lines 42 to 94.  On a successful receive:
update the buffer, decode the received slice lossily, print the status line
(`println!` panics if that fails), append the log entry to the file
(`expect` panics on a write error; a failed `write_all` is modelled as
writing nothing, only its fatality matters), and flush (`expect` panics on a
flush error).  On a receive error: print to stderr (`eprintln!` panics if
that fails) and continue with the log file untouched. -/
def step (inp : IterInput) (s : LoopState) : Outcome :=
  match inp.recv with
  | .ok datagram src =>
    let buf1 := recvIntoBuf datagram s.buf
    let dataStr := utf8Lossy (receivedData datagram s.buf)
    if inp.stdoutOk then
      let s1 : LoopState :=
        { s with buf := buf1,
                 stdout := s.stdout ++ [statusLine (numBytes datagram) src dataStr] }
      if inp.writeOk then
        let s2 := { s1 with written := s1.written ++ logEntry inp.now src dataStr }
        if inp.flushOk then .next { s2 with flushed := s2.written }
        else .fatal "Couldn\x27t flush file buffer" s2
      else .fatal "Couldn\x27t write to file" s1
    else .fatal "failed printing to stdout" { s with buf := buf1 }
  | .err e =>
    if inp.stderrOk then .next { s with stderr := s.stderr ++ [errLine e] }
    else .fatal "failed printing to stderr" s

/-- State after startup (lines 23 to 38): `File::create("udp_packets.log")`
truncates the log file, so whatever content `priorLog` a previous run left
at that path is discarded and the file starts empty; the buffer starts
zeroed and the two banner lines have been printed. -/
def startup (_priorLog : String) : LoopState :=
  { buf := List.replicate BUF_SIZE 0,
    written := "",
    flushed := "",
    stdout := ["UDP Listener started on 127.0.0.1:8080",
               "Incoming packets will be logged to \x27udp_packets.log\x27"],
    stderr := [] }

/-- Repeated loop iterations under a list of environment inputs, stopping
early when the process panics. -/
def run (inputs : List IterInput) (s : LoopState) : Outcome :=
  match inputs with
  | [] => .next s
  | i :: rest =>
    match step i s with
    | .next s1 => run rest s1
    | .fatal m s1 => .fatal m s1

/-- Externally observable part of a loop state: everything except the
residual contents of the receive buffer. -/
def obs (s : LoopState) : String × String × List String × List String :=
  (s.written, s.flushed, s.stdout, s.stderr)

/-- Externally observable part of an outcome: the panic message, if any,
and the observable state. -/
def obsOutcome : Outcome → Option String × String × String × List String × List String
  | .next s => (none, s.written, s.flushed, s.stdout, s.stderr)
  | .fatal m s => (some m, s.written, s.flushed, s.stdout, s.stderr)

/-- Whether every side effect of an iteration succeeds in its environment. -/
def allOk (i : IterInput) : Bool :=
  match i.recv with
  | .ok _ _ => i.stdoutOk && i.writeOk && i.flushOk
  | .err _ => i.stderrOk

/-- Concatenation of the log entries a list of iteration environments
produces (receive errors contribute nothing). -/
def entryStrings : List IterInput → String
  | [] => ""
  | i :: rest =>
    (match i.recv with
     | .ok d src => logEntry i.now src (utf8Lossy (d.take BUF_SIZE))
     | .err _ => "") ++ entryStrings rest

/-!
### Helper lemmas

Basic facts about the receive buffer, the decimal renderings, the lossy
decoder and the branches of `step`, shared by the claim theorems below.
-/

/-- The slice `&buf[..number_of_bytes]` taken right after `recv_from` is
exactly the datagram truncated to the buffer size — it never includes
residual bytes of the buffer. -/
theorem receivedData_eq (datagram buf : List Nat) :
    receivedData datagram buf = datagram.take BUF_SIZE := by
  unfold receivedData recvIntoBuf numBytes
  apply List.take_left'
  simp [Nat.min_comm]

/-- Receiving a datagram preserves the length of the buffer. -/
theorem recvIntoBuf_length (datagram buf : List Nat) (h : buf.length = BUF_SIZE) :
    (recvIntoBuf datagram buf).length = BUF_SIZE := by
  simp [recvIntoBuf, numBytes, h]
  omega

/-- A digit value below ten renders as a digit character. -/
theorem digitChar_isDigit (m : Nat) (h : m < 10) : (digitChar m).isDigit = true := by
  interval_cases m <;> decide

/-- Every character produced by the decimal rendering loop is a digit. -/
theorem decDigitsAux_all_digits (fuel : Nat) :
    ∀ (n : Nat), ∀ c ∈ decDigitsAux fuel n, c.isDigit = true := by
  induction fuel with
  | zero => intro n c hc; simp [decDigitsAux] at hc
  | succ fuel ih =>
    intro n c hc
    rw [decDigitsAux] at hc
    by_cases h : n < 10
    · rw [if_pos h] at hc
      simp at hc
      subst hc
      exact digitChar_isDigit n h
    · rw [if_neg h] at hc
      rcases List.mem_append.1 hc with hc | hc
      · exact ih _ c hc
      · simp at hc
        subst hc
        exact digitChar_isDigit _ (Nat.mod_lt _ (by omega))

/-- Every character of a decimal rendering is a digit. -/
theorem decDigits_all_digits (n : Nat) : ∀ c ∈ decDigits n, c.isDigit = true :=
  decDigitsAux_all_digits (n + 1) n

/-- A number below `10 ^ k` renders in at most `k` digits. -/
theorem decDigitsAux_length_le (fuel : Nat) :
    ∀ (n k : Nat), n < fuel → n < 10 ^ k → 1 ≤ k →
      (decDigitsAux fuel n).length ≤ k := by
  induction fuel with
  | zero => intro n k hf _ _; omega
  | succ fuel ih =>
    intro n k hf hk hk1
    rw [decDigitsAux]
    by_cases h : n < 10
    · rw [if_pos h]
      simpa using hk1
    · rw [if_neg h]
      have hk2 : 2 ≤ k := by
        by_contra hc
        have : k = 1 := by omega
        subst this
        simp at hk
        omega
      have hdiv : n / 10 < 10 ^ (k - 1) := by
        rw [Nat.div_lt_iff_lt_mul (by omega)]
        have : 10 ^ (k - 1) * 10 = 10 ^ k := by
          rw [← Nat.pow_succ]
          congr 1
          omega
        omega
      have hdivf : n / 10 < fuel := by
        have := Nat.div_lt_self (show 0 < n by omega) (show 1 < 10 by omega)
        omega
      have := ih (n / 10) (k - 1) hdivf hdiv (by omega)
      simp only [List.length_append, List.length_singleton]
      omega

/-- A number below `10 ^ k` (with `k ≥ 1`) renders in at most `k` digits. -/
theorem decDigits_length_le (n k : Nat) (hk : n < 10 ^ k) (hk1 : 1 ≤ k) :
    (decDigits n).length ≤ k :=
  decDigitsAux_length_le (n + 1) n k (by omega) hk hk1

/-- The zero padded rendering of a number below `10 ^ w` has width exactly `w`. -/
theorem padDec_length (w n : Nat) (hw : 1 ≤ w) (h : n < 10 ^ w) :
    (padDec w n).length = w := by
  have := decDigits_length_le n w h hw
  simp [padDec]
  omega

/-- Every character of a zero padded rendering is a digit. -/
theorem padDec_all_digits (w n : Nat) : ∀ c ∈ padDec w n, c.isDigit = true := by
  intro c hc
  rcases List.mem_append.1 hc with hc | hc
  · have := List.eq_of_mem_replicate hc
    subst this
    decide
  · exact decDigits_all_digits n c hc

/-- Concatenation of strings built from character lists. -/
theorem mk_append (a b : List Char) : String.mk a ++ String.mk b = String.mk (a ++ b) := rfl

/-- When the validator rejects a byte list, the lossy decoding contains the
replacement character. -/
theorem repl_mem_utf8LossyAux (fuel : Nat) :
    ∀ l : List Nat, l.length ≤ fuel → validUtf8Aux fuel l = false →
      repl ∈ utf8LossyAux fuel l := by
  induction fuel with
  | zero =>
    intro l hl hv
    match l with
    | [] => simp [validUtf8Aux] at hv
    | _ :: _ => simp at hl
  | succ fuel ih =>
    intro l hl hv
    match l with
    | [] => simp [validUtf8Aux] at hv
    | b0 :: r0 =>
      rw [validUtf8Aux] at hv
      rw [utf8LossyAux]
      rcases hp : (utf8Step (b0 :: r0)).1 with _ | c
      · simp [hp]
      · rw [hp] at hv
        simp only [Option.isSome_some, Bool.true_and] at hv
        have hlen : (r0.drop (utf8Step (b0 :: r0)).2).length ≤ fuel := by
          simp only [List.length_drop]
          simp at hl
          omega
        exact List.mem_cons_of_mem _ (ih _ hlen hv)

/-- Invalid payloads decode to text containing the replacement character. -/
theorem repl_mem_utf8Lossy (l : List Nat) (h : validUtf8 l = false) :
    repl ∈ utf8Lossy l :=
  repl_mem_utf8LossyAux l.length l le_rfl h

/-- Successful iteration: all four side effects succeed, the buffer receives
the datagram, the status line goes to stdout, and the log entry for the
truncated datagram is written and flushed. -/
theorem step_ok_success (inp : IterInput) (s : LoopState) (datagram : List Nat)
    (src : SockAddrV4) (hrecv : inp.recv = .ok datagram src)
    (h1 : inp.stdoutOk = true) (h2 : inp.writeOk = true) (h3 : inp.flushOk = true) :
    step inp s = .next
      { buf := recvIntoBuf datagram s.buf,
        written := s.written ++ logEntry inp.now src (utf8Lossy (datagram.take BUF_SIZE)),
        flushed := s.written ++ logEntry inp.now src (utf8Lossy (datagram.take BUF_SIZE)),
        stdout := s.stdout ++ [statusLine (numBytes datagram) src (utf8Lossy (datagram.take BUF_SIZE))],
        stderr := s.stderr } := by
  unfold step
  rw [hrecv]
  simp [h1, h2, h3, receivedData_eq]

/-- Iteration in which the stdout status print fails: the process panics
before anything reaches the log file. -/
theorem step_ok_stdoutFail (inp : IterInput) (s : LoopState) (datagram : List Nat)
    (src : SockAddrV4) (hrecv : inp.recv = .ok datagram src)
    (h1 : inp.stdoutOk = false) :
    step inp s = .fatal "failed printing to stdout"
      { s with buf := recvIntoBuf datagram s.buf } := by
  unfold step
  rw [hrecv]
  simp [h1]

/-- Iteration in which the file write fails: the process panics with the
`expect` message of line 81 and the log file content is unchanged. -/
theorem step_ok_writeFail (inp : IterInput) (s : LoopState) (datagram : List Nat)
    (src : SockAddrV4) (hrecv : inp.recv = .ok datagram src)
    (h1 : inp.stdoutOk = true) (h2 : inp.writeOk = false) :
    step inp s = .fatal "Couldn\x27t write to file"
      { s with buf := recvIntoBuf datagram s.buf,
               stdout := s.stdout ++
                 [statusLine (numBytes datagram) src (utf8Lossy (datagram.take BUF_SIZE))] } := by
  unfold step
  rw [hrecv]
  simp [h1, h2, receivedData_eq]

/-- Iteration in which the flush fails: the process panics with the `expect`
message of line 85; the entry was written but not flushed. -/
theorem step_ok_flushFail (inp : IterInput) (s : LoopState) (datagram : List Nat)
    (src : SockAddrV4) (hrecv : inp.recv = .ok datagram src)
    (h1 : inp.stdoutOk = true) (h2 : inp.writeOk = true) (h3 : inp.flushOk = false) :
    step inp s = .fatal "Couldn\x27t flush file buffer"
      { buf := recvIntoBuf datagram s.buf,
        written := s.written ++ logEntry inp.now src (utf8Lossy (datagram.take BUF_SIZE)),
        flushed := s.flushed,
        stdout := s.stdout ++ [statusLine (numBytes datagram) src (utf8Lossy (datagram.take BUF_SIZE))],
        stderr := s.stderr } := by
  unfold step
  rw [hrecv]
  simp [h1, h2, h3, receivedData_eq]

/-- Receive error iteration with a healthy stderr: the error is reported and
the loop continues with everything else unchanged. -/
theorem step_err_ok (inp : IterInput) (s : LoopState) (e : String)
    (hrecv : inp.recv = .err e) (h1 : inp.stderrOk = true) :
    step inp s = .next { s with stderr := s.stderr ++ [errLine e] } := by
  unfold step
  rw [hrecv]
  simp [h1]

/-- Receive error iteration in which the stderr print itself fails: the
process panics, because `eprintln!` panics when writing to stderr fails. -/
theorem step_err_fail (inp : IterInput) (s : LoopState) (e : String)
    (hrecv : inp.recv = .err e) (h1 : inp.stderrOk = false) :
    step inp s = .fatal "failed printing to stderr" s := by
  unfold step
  rw [hrecv]
  simp [h1]

/-- A run in which every side effect succeeds appends exactly the entries
of its inputs to the file and ends with the file flushed. -/
theorem run_all_ok (inputs : List IterInput) :
    ∀ s : LoopState, (∀ i ∈ inputs, allOk i = true) → s.flushed = s.written →
      ∃ s1, run inputs s = .next s1 ∧
        s1.written = s.written ++ entryStrings inputs ∧ s1.flushed = s1.written := by
  induction inputs with
  | nil =>
    intro s _ hfl
    exact ⟨s, rfl, by rw [entryStrings, String.append_empty], hfl⟩
  | cons i rest ih =>
    intro s hok hfl
    have hoki : allOk i = true := hok i (List.mem_cons_self i rest)
    have hokr : ∀ j ∈ rest, allOk j = true := fun j hj => hok j (List.mem_cons_of_mem i hj)
    rcases hr : i.recv with ⟨d, src⟩ | e
    · have h123 := hoki
      unfold allOk at h123
      rw [hr] at h123
      simp only [Bool.and_eq_true] at h123
      obtain ⟨⟨ha, hb⟩, hc⟩ := h123
      have hstep := step_ok_success i s d src hr ha hb hc
      rw [run, hstep]
      dsimp only
      obtain ⟨s1, hrun, hw, hf⟩ := ih
        { buf := recvIntoBuf d s.buf,
          written := s.written ++ logEntry i.now src (utf8Lossy (d.take BUF_SIZE)),
          flushed := s.written ++ logEntry i.now src (utf8Lossy (d.take BUF_SIZE)),
          stdout := s.stdout ++ [statusLine (numBytes d) src (utf8Lossy (d.take BUF_SIZE))],
          stderr := s.stderr } hokr rfl
      refine ⟨s1, hrun, ?_, hf⟩
      rw [hw]
      simp only [entryStrings, hr]
      rw [String.append_assoc]
    · have h1 : i.stderrOk = true := by
        unfold allOk at hoki
        rw [hr] at hoki
        exact hoki
      have hstep := step_err_ok i s e hr h1
      rw [run, hstep]
      dsimp only
      obtain ⟨s1, hrun, hw, hf⟩ := ih { s with stderr := s.stderr ++ [errLine e] } hokr hfl
      refine ⟨s1, hrun, ?_, hf⟩
      rw [hw]
      simp only [entryStrings, hr]
      rw [String.empty_append]

/-!
### Claim theorems

One theorem per claim of the specification review, each with a closed
witness instantiating it at a concrete input.
-/

/-- C1: every successfully received datagram whose iteration reaches the
next receive call produced exactly one new log entry, written to the file
and flushed; and no iteration, whatever its outcome, appends more than this
one entry to the file — nothing is buffered or batched. -/
theorem c1_exactly_one_entry_per_received_datagram (inp : IterInput) (s : LoopState)
    (datagram : List Nat) (src : SockAddrV4)
    (hrecv : inp.recv = .ok datagram src) :
    (∀ s1, step inp s = .next s1 →
      s1.written = s.written ++ logEntry inp.now src (utf8Lossy (datagram.take BUF_SIZE)) ∧
      s1.flushed = s1.written) ∧
    ((outState (step inp s)).written = s.written ∨
     (outState (step inp s)).written =
       s.written ++ logEntry inp.now src (utf8Lossy (datagram.take BUF_SIZE))) := by
  cases h1 : inp.stdoutOk with
  | false =>
    rw [step_ok_stdoutFail inp s datagram src hrecv h1]
    exact ⟨fun s1 h => Outcome.noConfusion h, Or.inl rfl⟩
  | true =>
    cases h2 : inp.writeOk with
    | false =>
      rw [step_ok_writeFail inp s datagram src hrecv h1 h2]
      exact ⟨fun s1 h => Outcome.noConfusion h, Or.inl rfl⟩
    | true =>
      cases h3 : inp.flushOk with
      | false =>
        rw [step_ok_flushFail inp s datagram src hrecv h1 h2 h3]
        exact ⟨fun s1 h => Outcome.noConfusion h, Or.inr rfl⟩
      | true =>
        rw [step_ok_success inp s datagram src hrecv h1 h2 h3]
        refine ⟨fun s1 h => ?_, Or.inr rfl⟩
        rw [← Outcome.next.inj h]
        exact ⟨rfl, rfl⟩

/-- Witness for C1 at the example scenario of the specification: the bytes
of `hello` from `127.0.0.1:54321`, all side effects succeeding; the appended
entry evaluates to the exact example line. -/
theorem c1_witness :
    ((∀ s1, step ⟨.ok [104, 101, 108, 108, 111] ⟨127, 0, 0, 1, 54321⟩,
          ⟨2024, 1, 1, 12, 0, 0, 123⟩, true, true, true, true⟩ (startup "") = .next s1 →
        s1.written = (startup "").written ++ logEntry ⟨2024, 1, 1, 12, 0, 0, 123⟩
          ⟨127, 0, 0, 1, 54321⟩ (utf8Lossy ([104, 101, 108, 108, 111].take BUF_SIZE)) ∧
        s1.flushed = s1.written) ∧
      ((outState (step ⟨.ok [104, 101, 108, 108, 111] ⟨127, 0, 0, 1, 54321⟩,
          ⟨2024, 1, 1, 12, 0, 0, 123⟩, true, true, true, true⟩ (startup ""))).written =
          (startup "").written ∨
       (outState (step ⟨.ok [104, 101, 108, 108, 111] ⟨127, 0, 0, 1, 54321⟩,
          ⟨2024, 1, 1, 12, 0, 0, 123⟩, true, true, true, true⟩ (startup ""))).written =
          (startup "").written ++ logEntry ⟨2024, 1, 1, 12, 0, 0, 123⟩
            ⟨127, 0, 0, 1, 54321⟩ (utf8Lossy ([104, 101, 108, 108, 111].take BUF_SIZE)))) ∧
    logEntry ⟨2024, 1, 1, 12, 0, 0, 123⟩ ⟨127, 0, 0, 1, 54321⟩
        (utf8Lossy ([104, 101, 108, 108, 111].take BUF_SIZE)) =
      "[2024-01-01 12:00:00.123] Received from 127.0.0.1:54321: hello\n" :=
  ⟨c1_exactly_one_entry_per_received_datagram _ _ [104, 101, 108, 108, 111]
      ⟨127, 0, 0, 1, 54321⟩ rfl,
    by decide⟩

/-- C2: the log line written for a successfully received datagram is exactly
`"[" ++ timestamp ++ "] Received from " ++ address ++ ": " ++ text ++ "\n"`
where `text` is the lossy rendering of the (truncated) payload, and the
timestamp rendering consists of digit groups of widths 4, 2, 2, 2, 2, 2 and
3 joined by `-`, `-`, space, `:`, `:` and `.` — the shape
`YYYY-MM-DD HH:MM:SS.mmm`. -/
theorem c2_log_line_format (inp : IterInput) (s s1 : LoopState) (datagram : List Nat)
    (src : SockAddrV4)
    (hrecv : inp.recv = .ok datagram src)
    (hnext : step inp s = .next s1)
    (hy : inp.now.year < 10000) (hmo : inp.now.month < 100) (hday : inp.now.day < 100)
    (hho : inp.now.hour < 100) (hmi : inp.now.minute < 100) (hse : inp.now.second < 100)
    (hms : inp.now.millis < 1000) :
    s1.written = s.written ++
      String.mk ('[' :: fmtTimestampL inp.now ++ "] Received from ".data ++
        fmtAddrL src ++ ": ".data ++ utf8Lossy (datagram.take BUF_SIZE) ++ ['\n']) ∧
    ∃ sy smo sd sh smi sse sms : List Char,
      fmtTimestampL inp.now =
        sy ++ ('-' :: smo) ++ ('-' :: sd) ++ (' ' :: sh) ++ (':' :: smi) ++
          (':' :: sse) ++ ('.' :: sms) ∧
      sy.length = 4 ∧ smo.length = 2 ∧ sd.length = 2 ∧ sh.length = 2 ∧
      smi.length = 2 ∧ sse.length = 2 ∧ sms.length = 3 ∧
      (∀ c ∈ sy ++ smo ++ sd ++ sh ++ smi ++ sse ++ sms, c.isDigit = true) := by
  have h1 : inp.stdoutOk = true := by
    cases h1 : inp.stdoutOk with
    | false =>
      rw [step_ok_stdoutFail inp s datagram src hrecv h1] at hnext
      exact Outcome.noConfusion hnext
    | true => rfl
  have h2 : inp.writeOk = true := by
    cases h2 : inp.writeOk with
    | false =>
      rw [step_ok_writeFail inp s datagram src hrecv h1 h2] at hnext
      exact Outcome.noConfusion hnext
    | true => rfl
  have h3 : inp.flushOk = true := by
    cases h3 : inp.flushOk with
    | false =>
      rw [step_ok_flushFail inp s datagram src hrecv h1 h2 h3] at hnext
      exact Outcome.noConfusion hnext
    | true => rfl
  rw [step_ok_success inp s datagram src hrecv h1 h2 h3] at hnext
  constructor
  · rw [← Outcome.next.inj hnext]
    rfl
  · refine ⟨padDec 4 inp.now.year, padDec 2 inp.now.month, padDec 2 inp.now.day,
      padDec 2 inp.now.hour, padDec 2 inp.now.minute, padDec 2 inp.now.second,
      padDec 3 inp.now.millis, rfl, ?_, ?_, ?_, ?_, ?_, ?_, ?_, ?_⟩
    · exact padDec_length 4 _ (by omega) (by omega)
    · exact padDec_length 2 _ (by omega) (by omega)
    · exact padDec_length 2 _ (by omega) (by omega)
    · exact padDec_length 2 _ (by omega) (by omega)
    · exact padDec_length 2 _ (by omega) (by omega)
    · exact padDec_length 2 _ (by omega) (by omega)
    · exact padDec_length 3 _ (by omega) (by omega)
    · intro c hc
      simp only [List.mem_append] at hc
      rcases hc with ((((((hc | hc) | hc) | hc) | hc) | hc) | hc) <;>
        exact padDec_all_digits _ _ c hc

/-- Witness for C2 at the example scenario, with the timestamp rendering
evaluated to the exact example text. -/
theorem c2_witness :
    ((startup "").written ++
        String.mk ('[' :: fmtTimestampL ⟨2024, 1, 1, 12, 0, 0, 123⟩ ++
          "] Received from ".data ++ fmtAddrL ⟨127, 0, 0, 1, 54321⟩ ++ ": ".data ++
          utf8Lossy ([104, 101, 108, 108, 111].take BUF_SIZE) ++ ['\n']) =
      (startup "").written ++
        String.mk ('[' :: fmtTimestampL ⟨2024, 1, 1, 12, 0, 0, 123⟩ ++
          "] Received from ".data ++ fmtAddrL ⟨127, 0, 0, 1, 54321⟩ ++ ": ".data ++
          utf8Lossy ([104, 101, 108, 108, 111].take BUF_SIZE) ++ ['\n']) ∧
      ∃ sy smo sd sh smi sse sms : List Char,
        fmtTimestampL ⟨2024, 1, 1, 12, 0, 0, 123⟩ =
          sy ++ ('-' :: smo) ++ ('-' :: sd) ++ (' ' :: sh) ++ (':' :: smi) ++
            (':' :: sse) ++ ('.' :: sms) ∧
        sy.length = 4 ∧ smo.length = 2 ∧ sd.length = 2 ∧ sh.length = 2 ∧
        smi.length = 2 ∧ sse.length = 2 ∧ sms.length = 3 ∧
        (∀ c ∈ sy ++ smo ++ sd ++ sh ++ smi ++ sse ++ sms, c.isDigit = true)) ∧
    String.mk (fmtTimestampL ⟨2024, 1, 1, 12, 0, 0, 123⟩) = "2024-01-01 12:00:00.123" := by
  constructor
  · have happ := step_ok_success
      ⟨.ok [104, 101, 108, 108, 111] ⟨127, 0, 0, 1, 54321⟩,
        ⟨2024, 1, 1, 12, 0, 0, 123⟩, true, true, true, true⟩ (startup "")
      [104, 101, 108, 108, 111] ⟨127, 0, 0, 1, 54321⟩ rfl rfl rfl rfl
    have h := c2_log_line_format
      ⟨.ok [104, 101, 108, 108, 111] ⟨127, 0, 0, 1, 54321⟩,
        ⟨2024, 1, 1, 12, 0, 0, 123⟩, true, true, true, true⟩ (startup "") _
      [104, 101, 108, 108, 111] ⟨127, 0, 0, 1, 54321⟩ rfl happ
      (by decide) (by decide) (by decide) (by decide) (by decide) (by decide) (by decide)
    exact ⟨h.1, h.2⟩
  · decide

/-- C3: a datagram longer than the 1500 byte buffer is received truncated:
the reported byte count is the buffer size, the slice taken from the buffer
is in bounds, exactly the first 1500 payload bytes are captured and logged,
and the iteration completes without a crash. -/
theorem c3_truncation_safe (inp : IterInput) (s : LoopState) (datagram : List Nat)
    (src : SockAddrV4)
    (hrecv : inp.recv = .ok datagram src)
    (hlong : BUF_SIZE < datagram.length)
    (hbuf : s.buf.length = BUF_SIZE)
    (h1 : inp.stdoutOk = true) (h2 : inp.writeOk = true) (h3 : inp.flushOk = true) :
    numBytes datagram = BUF_SIZE ∧
    numBytes datagram ≤ (recvIntoBuf datagram s.buf).length ∧
    receivedData datagram s.buf = datagram.take BUF_SIZE ∧
    (datagram.take BUF_SIZE).length = BUF_SIZE ∧
    step inp s = .next
      { buf := recvIntoBuf datagram s.buf,
        written := s.written ++ logEntry inp.now src (utf8Lossy (datagram.take BUF_SIZE)),
        flushed := s.written ++ logEntry inp.now src (utf8Lossy (datagram.take BUF_SIZE)),
        stdout := s.stdout ++
          [statusLine (numBytes datagram) src (utf8Lossy (datagram.take BUF_SIZE))],
        stderr := s.stderr } := by
  refine ⟨?_, ?_, receivedData_eq datagram s.buf, ?_,
    step_ok_success inp s datagram src hrecv h1 h2 h3⟩
  · unfold numBytes
    omega
  · rw [recvIntoBuf_length datagram s.buf hbuf]
    unfold numBytes
    omega
  · simp
    omega

/-- Witness for C3 at a 1501 byte datagram against the startup state. -/
theorem c3_witness :
    numBytes (List.replicate 1501 0) = BUF_SIZE ∧
    numBytes (List.replicate 1501 0) ≤
      (recvIntoBuf (List.replicate 1501 0) (startup "").buf).length ∧
    receivedData (List.replicate 1501 0) (startup "").buf =
      (List.replicate 1501 0).take BUF_SIZE ∧
    ((List.replicate 1501 0).take BUF_SIZE).length = BUF_SIZE ∧
    step ⟨.ok (List.replicate 1501 0) ⟨127, 0, 0, 1, 54321⟩,
        ⟨2024, 1, 1, 12, 0, 0, 123⟩, true, true, true, true⟩ (startup "") = .next
      { buf := recvIntoBuf (List.replicate 1501 0) (startup "").buf,
        written := (startup "").written ++ logEntry ⟨2024, 1, 1, 12, 0, 0, 123⟩
          ⟨127, 0, 0, 1, 54321⟩ (utf8Lossy ((List.replicate 1501 0).take BUF_SIZE)),
        flushed := (startup "").written ++ logEntry ⟨2024, 1, 1, 12, 0, 0, 123⟩
          ⟨127, 0, 0, 1, 54321⟩ (utf8Lossy ((List.replicate 1501 0).take BUF_SIZE)),
        stdout := (startup "").stdout ++
          [statusLine (numBytes (List.replicate 1501 0)) ⟨127, 0, 0, 1, 54321⟩
            (utf8Lossy ((List.replicate 1501 0).take BUF_SIZE))],
        stderr := (startup "").stderr } :=
  c3_truncation_safe _ _ (List.replicate 1501 0) ⟨127, 0, 0, 1, 54321⟩ rfl
    (by rw [List.length_replicate]; decide) (List.length_replicate BUF_SIZE 0) rfl rfl rfl

/-- C4: the decoding of a payload is lossy and total — for every payload,
valid UTF-8 or not, the iteration still completes and appends the log entry
built from the lossy rendering, and when the (truncated) payload is not
valid UTF-8 that rendering contains the replacement character. -/
theorem c4_lossy_decode_total (inp : IterInput) (s : LoopState) (datagram : List Nat)
    (src : SockAddrV4)
    (hrecv : inp.recv = .ok datagram src)
    (h1 : inp.stdoutOk = true) (h2 : inp.writeOk = true) (h3 : inp.flushOk = true) :
    step inp s = .next
      { buf := recvIntoBuf datagram s.buf,
        written := s.written ++ logEntry inp.now src (utf8Lossy (datagram.take BUF_SIZE)),
        flushed := s.written ++ logEntry inp.now src (utf8Lossy (datagram.take BUF_SIZE)),
        stdout := s.stdout ++
          [statusLine (numBytes datagram) src (utf8Lossy (datagram.take BUF_SIZE))],
        stderr := s.stderr } ∧
    (validUtf8 (datagram.take BUF_SIZE) = false →
      repl ∈ utf8Lossy (datagram.take BUF_SIZE)) :=
  ⟨step_ok_success inp s datagram src hrecv h1 h2 h3,
    repl_mem_utf8Lossy (datagram.take BUF_SIZE)⟩

/-- Witness for C4 at the invalid payload `0xFF 0x68`: the entry is still
produced, the payload is invalid, and its rendering is the replacement
character followed by `h`. -/
theorem c4_witness :
    (step ⟨.ok [255, 104] ⟨127, 0, 0, 1, 54321⟩,
        ⟨2024, 1, 1, 12, 0, 0, 123⟩, true, true, true, true⟩ (startup "") = .next
      { buf := recvIntoBuf [255, 104] (startup "").buf,
        written := (startup "").written ++ logEntry ⟨2024, 1, 1, 12, 0, 0, 123⟩
          ⟨127, 0, 0, 1, 54321⟩ (utf8Lossy ([255, 104].take BUF_SIZE)),
        flushed := (startup "").written ++ logEntry ⟨2024, 1, 1, 12, 0, 0, 123⟩
          ⟨127, 0, 0, 1, 54321⟩ (utf8Lossy ([255, 104].take BUF_SIZE)),
        stdout := (startup "").stdout ++
          [statusLine (numBytes [255, 104]) ⟨127, 0, 0, 1, 54321⟩
            (utf8Lossy ([255, 104].take BUF_SIZE))],
        stderr := (startup "").stderr } ∧
      (validUtf8 ([255, 104].take BUF_SIZE) = false →
        repl ∈ utf8Lossy ([255, 104].take BUF_SIZE))) ∧
    validUtf8 ([255, 104].take BUF_SIZE) = false ∧
    utf8Lossy ([255, 104].take BUF_SIZE) = [repl, Char.ofNat 104] :=
  ⟨c4_lossy_decode_total _ _ [255, 104] ⟨127, 0, 0, 1, 54321⟩ rfl rfl rfl rfl,
    by decide, by decide⟩

/-- C5 is refuted as stated: a receive error can terminate the process.
The error branch reports the error with `eprintln!`, and `eprintln!` panics
when writing to stderr fails, so a receive error coinciding with a failing
stderr write ends the process.  At this concrete input the iteration ends
in a panic instead of continuing the loop. -/
theorem c5_counterexample_stderr_failure :
    step ⟨.err "Resource temporarily unavailable", ⟨2024, 1, 1, 12, 0, 0, 0⟩,
        true, false, true, true⟩ (startup "") =
      .fatal "failed printing to stderr" (startup "") :=
  step_err_fail _ _ "Resource temporarily unavailable" rfl rfl

/-- C5 (amended): for every receive error whose report to stderr succeeds,
the program reports the error on stderr and continues the loop; the log
file (written and flushed content) is unchanged for that iteration, and a
subsequent valid datagram is still logged as usual. -/
theorem c5_receive_error_reported_and_loop_continues (inp : IterInput) (s : LoopState)
    (e : String) (hrecv : inp.recv = .err e) (h1 : inp.stderrOk = true) :
    step inp s = .next { s with stderr := s.stderr ++ [errLine e] } ∧
    ({ s with stderr := s.stderr ++ [errLine e] } : LoopState).written = s.written ∧
    ({ s with stderr := s.stderr ++ [errLine e] } : LoopState).flushed = s.flushed ∧
    (∀ inp2 datagram src, inp2.recv = .ok datagram src →
      inp2.stdoutOk = true → inp2.writeOk = true → inp2.flushOk = true →
      step inp2 { s with stderr := s.stderr ++ [errLine e] } = .next
        { buf := recvIntoBuf datagram s.buf,
          written := s.written ++ logEntry inp2.now src (utf8Lossy (datagram.take BUF_SIZE)),
          flushed := s.written ++ logEntry inp2.now src (utf8Lossy (datagram.take BUF_SIZE)),
          stdout := s.stdout ++
            [statusLine (numBytes datagram) src (utf8Lossy (datagram.take BUF_SIZE))],
          stderr := s.stderr ++ [errLine e] }) := by
  refine ⟨step_err_ok inp s e hrecv h1, rfl, rfl, ?_⟩
  intro inp2 datagram src hr2 g1 g2 g3
  exact step_ok_success inp2 { s with stderr := s.stderr ++ [errLine e] } datagram src hr2 g1 g2 g3

/-- Witness for C5 (amended) at a concrete transient receive error followed
by the example datagram, with the stderr line evaluated. -/
theorem c5_witness :
    (step ⟨.err "Resource temporarily unavailable", ⟨2024, 1, 1, 12, 0, 0, 0⟩,
        true, true, true, true⟩ (startup "") =
      .next { startup "" with
              stderr := (startup "").stderr ++ [errLine "Resource temporarily unavailable"] } ∧
      ({ startup "" with
         stderr := (startup "").stderr ++ [errLine "Resource temporarily unavailable"] } :
           LoopState).written = (startup "").written ∧
      ({ startup "" with
         stderr := (startup "").stderr ++ [errLine "Resource temporarily unavailable"] } :
           LoopState).flushed = (startup "").flushed ∧
      (∀ inp2 datagram src, inp2.recv = .ok datagram src →
        inp2.stdoutOk = true → inp2.writeOk = true → inp2.flushOk = true →
        step inp2 { startup "" with
            stderr := (startup "").stderr ++ [errLine "Resource temporarily unavailable"] } = .next
          { buf := recvIntoBuf datagram (startup "").buf,
            written := (startup "").written ++
              logEntry inp2.now src (utf8Lossy (datagram.take BUF_SIZE)),
            flushed := (startup "").written ++
              logEntry inp2.now src (utf8Lossy (datagram.take BUF_SIZE)),
            stdout := (startup "").stdout ++
              [statusLine (numBytes datagram) src (utf8Lossy (datagram.take BUF_SIZE))],
            stderr := (startup "").stderr ++ [errLine "Resource temporarily unavailable"] })) ∧
    errLine "Resource temporarily unavailable" =
      "Error receiving packet: Resource temporarily unavailable" :=
  ⟨c5_receive_error_reported_and_loop_continues _ (startup "")
      "Resource temporarily unavailable" rfl rfl,
    by decide⟩

/-- C6: a failing write of the log entry and a failing flush are both
fatal: the iteration ends in a panic carrying the corresponding `expect`
message from lines 81 and 85, and in neither case does the loop continue to
the next receive call — there is no retry. -/
theorem c6_write_flush_failure_fatal (inp : IterInput) (s : LoopState)
    (datagram : List Nat) (src : SockAddrV4)
    (hrecv : inp.recv = .ok datagram src) (h1 : inp.stdoutOk = true) :
    (inp.writeOk = false →
      step inp s = .fatal "Couldn\x27t write to file"
        { s with buf := recvIntoBuf datagram s.buf,
                 stdout := s.stdout ++
                   [statusLine (numBytes datagram) src (utf8Lossy (datagram.take BUF_SIZE))] } ∧
      ∀ s1, step inp s ≠ .next s1) ∧
    (inp.writeOk = true → inp.flushOk = false →
      step inp s = .fatal "Couldn\x27t flush file buffer"
        { buf := recvIntoBuf datagram s.buf,
          written := s.written ++ logEntry inp.now src (utf8Lossy (datagram.take BUF_SIZE)),
          flushed := s.flushed,
          stdout := s.stdout ++
            [statusLine (numBytes datagram) src (utf8Lossy (datagram.take BUF_SIZE))],
          stderr := s.stderr } ∧
      ∀ s1, step inp s ≠ .next s1) := by
  constructor
  · intro h2
    have hstep := step_ok_writeFail inp s datagram src hrecv h1 h2
    refine ⟨hstep, fun s1 h => ?_⟩
    rw [hstep] at h
    exact Outcome.noConfusion h
  · intro h2 h3
    have hstep := step_ok_flushFail inp s datagram src hrecv h1 h2 h3
    refine ⟨hstep, fun s1 h => ?_⟩
    rw [hstep] at h
    exact Outcome.noConfusion h

/-- Witness for C6 at two concrete inputs, one with a failing write and one
with a failing flush. -/
theorem c6_witness :
    ((⟨.ok [104, 105] ⟨127, 0, 0, 1, 54321⟩, ⟨2024, 1, 1, 12, 0, 0, 123⟩,
        true, true, false, true⟩ : IterInput).writeOk = false →
      step ⟨.ok [104, 105] ⟨127, 0, 0, 1, 54321⟩, ⟨2024, 1, 1, 12, 0, 0, 123⟩,
          true, true, false, true⟩ (startup "") = .fatal "Couldn\x27t write to file"
        { startup "" with
          buf := recvIntoBuf [104, 105] (startup "").buf,
          stdout := (startup "").stdout ++
            [statusLine (numBytes [104, 105]) ⟨127, 0, 0, 1, 54321⟩
              (utf8Lossy ([104, 105].take BUF_SIZE))] } ∧
      ∀ s1, step ⟨.ok [104, 105] ⟨127, 0, 0, 1, 54321⟩, ⟨2024, 1, 1, 12, 0, 0, 123⟩,
          true, true, false, true⟩ (startup "") ≠ .next s1) ∧
    ((⟨.ok [104, 105] ⟨127, 0, 0, 1, 54321⟩, ⟨2024, 1, 1, 12, 0, 0, 123⟩,
        true, true, true, false⟩ : IterInput).writeOk = true →
      (⟨.ok [104, 105] ⟨127, 0, 0, 1, 54321⟩, ⟨2024, 1, 1, 12, 0, 0, 123⟩,
        true, true, true, false⟩ : IterInput).flushOk = false →
      step ⟨.ok [104, 105] ⟨127, 0, 0, 1, 54321⟩, ⟨2024, 1, 1, 12, 0, 0, 123⟩,
          true, true, true, false⟩ (startup "") = .fatal "Couldn\x27t flush file buffer"
        { buf := recvIntoBuf [104, 105] (startup "").buf,
          written := (startup "").written ++ logEntry ⟨2024, 1, 1, 12, 0, 0, 123⟩
            ⟨127, 0, 0, 1, 54321⟩ (utf8Lossy ([104, 105].take BUF_SIZE)),
          flushed := (startup "").flushed,
          stdout := (startup "").stdout ++
            [statusLine (numBytes [104, 105]) ⟨127, 0, 0, 1, 54321⟩
              (utf8Lossy ([104, 105].take BUF_SIZE))],
          stderr := (startup "").stderr } ∧
      ∀ s1, step ⟨.ok [104, 105] ⟨127, 0, 0, 1, 54321⟩, ⟨2024, 1, 1, 12, 0, 0, 123⟩,
          true, true, true, false⟩ (startup "") ≠ .next s1) :=
  ⟨(c6_write_flush_failure_fatal _ (startup "") [104, 105] ⟨127, 0, 0, 1, 54321⟩ rfl rfl).1,
    (c6_write_flush_failure_fatal _ (startup "") [104, 105] ⟨127, 0, 0, 1, 54321⟩ rfl rfl).2⟩

/-- C7: the log file is truncated at startup: whatever content a prior run
left at the path is discarded (the file starts empty regardless of it, and
the whole run is independent of it), so after an all successful second run
exactly the second run entries are in the file, flushed. -/
theorem c7_log_truncated_on_startup (prior1 prior2 : String) (inputs : List IterInput)
    (hok : ∀ i ∈ inputs, allOk i = true) :
    (startup prior1).written = "" ∧ (startup prior1).flushed = "" ∧
    run inputs (startup prior1) = run inputs (startup prior2) ∧
    ∃ s1, run inputs (startup prior1) = .next s1 ∧
      s1.written = entryStrings inputs ∧ s1.flushed = s1.written := by
  refine ⟨rfl, rfl, rfl, ?_⟩
  obtain ⟨s1, hrun, hw, hf⟩ := run_all_ok inputs (startup prior1) hok rfl
  refine ⟨s1, hrun, ?_, hf⟩
  rw [hw]
  exact String.empty_append _

/-- Witness for C7: a first run leaves an old line at the path, a second
run with one received datagram sees an empty file at startup and ends with
exactly its own entry, evaluated to the example line. -/
theorem c7_witness :
    ((startup "[2023-12-31 23:59:59.999] Received from 127.0.0.1:1: old\n").written = "" ∧
      (startup "[2023-12-31 23:59:59.999] Received from 127.0.0.1:1: old\n").flushed = "" ∧
      run [⟨.ok [104, 101, 108, 108, 111] ⟨127, 0, 0, 1, 54321⟩,
          ⟨2024, 1, 1, 12, 0, 0, 123⟩, true, true, true, true⟩]
        (startup "[2023-12-31 23:59:59.999] Received from 127.0.0.1:1: old\n") =
      run [⟨.ok [104, 101, 108, 108, 111] ⟨127, 0, 0, 1, 54321⟩,
          ⟨2024, 1, 1, 12, 0, 0, 123⟩, true, true, true, true⟩] (startup "") ∧
      ∃ s1, run [⟨.ok [104, 101, 108, 108, 111] ⟨127, 0, 0, 1, 54321⟩,
          ⟨2024, 1, 1, 12, 0, 0, 123⟩, true, true, true, true⟩]
        (startup "[2023-12-31 23:59:59.999] Received from 127.0.0.1:1: old\n") = .next s1 ∧
        s1.written = entryStrings [⟨.ok [104, 101, 108, 108, 111] ⟨127, 0, 0, 1, 54321⟩,
          ⟨2024, 1, 1, 12, 0, 0, 123⟩, true, true, true, true⟩] ∧
        s1.flushed = s1.written) ∧
    entryStrings [⟨.ok [104, 101, 108, 108, 111] ⟨127, 0, 0, 1, 54321⟩,
        ⟨2024, 1, 1, 12, 0, 0, 123⟩, true, true, true, true⟩] =
      "[2024-01-01 12:00:00.123] Received from 127.0.0.1:54321: hello\n" :=
  ⟨c7_log_truncated_on_startup
      "[2023-12-31 23:59:59.999] Received from 127.0.0.1:1: old\n" ""
      [⟨.ok [104, 101, 108, 108, 111] ⟨127, 0, 0, 1, 54321⟩,
        ⟨2024, 1, 1, 12, 0, 0, 123⟩, true, true, true, true⟩] (by decide),
    by decide⟩

/-- C8 is refuted as stated: the console status line is not best effort.
`println!` panics when writing to stdout fails, so a failing console write
terminates the process — at this concrete input the iteration panics and,
moreover, the successfully received datagram leaves no log entry at all. -/
theorem c8_counterexample_stdout_failure :
    step ⟨.ok [104, 101, 108, 108, 111] ⟨127, 0, 0, 1, 54321⟩,
        ⟨2024, 1, 1, 12, 0, 0, 123⟩, false, true, true, true⟩ (startup "") =
      .fatal "failed printing to stdout"
        { startup "" with buf := recvIntoBuf [104, 101, 108, 108, 111] (startup "").buf } ∧
    ({ startup "" with
       buf := recvIntoBuf [104, 101, 108, 108, 111] (startup "").buf } : LoopState).written = "" :=
  ⟨step_ok_stdoutFail _ _ [104, 101, 108, 108, 111] ⟨127, 0, 0, 1, 54321⟩ rfl rfl, rfl⟩

/-- C8 (amended): for every successfully received datagram the program
emits one console status line reporting the byte count, the source address
and the decoded text; the emission is not best effort — when the stdout
write fails, `println!` panics and the process terminates (without logging
the datagram). -/
theorem c8_status_line_emitted (inp : IterInput) (s : LoopState) (datagram : List Nat)
    (src : SockAddrV4) (hrecv : inp.recv = .ok datagram src) :
    (inp.stdoutOk = true →
      (outState (step inp s)).stdout =
        s.stdout ++ [statusLine (numBytes datagram) src (utf8Lossy (datagram.take BUF_SIZE))]) ∧
    (inp.stdoutOk = false →
      step inp s = .fatal "failed printing to stdout"
        { s with buf := recvIntoBuf datagram s.buf }) := by
  constructor
  · intro h1
    cases h2 : inp.writeOk with
    | false =>
      rw [step_ok_writeFail inp s datagram src hrecv h1 h2]
      rfl
    | true =>
      cases h3 : inp.flushOk with
      | false =>
        rw [step_ok_flushFail inp s datagram src hrecv h1 h2 h3]
        rfl
      | true =>
        rw [step_ok_success inp s datagram src hrecv h1 h2 h3]
        rfl
  · intro h1
    exact step_ok_stdoutFail inp s datagram src hrecv h1

/-- Witness for C8 (amended) at the example datagram with healthy stdout,
with the status line evaluated. -/
theorem c8_witness :
    (((⟨.ok [104, 101, 108, 108, 111] ⟨127, 0, 0, 1, 54321⟩,
        ⟨2024, 1, 1, 12, 0, 0, 123⟩, true, true, true, true⟩ : IterInput).stdoutOk = true →
      (outState (step ⟨.ok [104, 101, 108, 108, 111] ⟨127, 0, 0, 1, 54321⟩,
          ⟨2024, 1, 1, 12, 0, 0, 123⟩, true, true, true, true⟩ (startup ""))).stdout =
        (startup "").stdout ++ [statusLine (numBytes [104, 101, 108, 108, 111])
          ⟨127, 0, 0, 1, 54321⟩ (utf8Lossy ([104, 101, 108, 108, 111].take BUF_SIZE))]) ∧
    ((⟨.ok [104, 101, 108, 108, 111] ⟨127, 0, 0, 1, 54321⟩,
        ⟨2024, 1, 1, 12, 0, 0, 123⟩, true, true, true, true⟩ : IterInput).stdoutOk = false →
      step ⟨.ok [104, 101, 108, 108, 111] ⟨127, 0, 0, 1, 54321⟩,
          ⟨2024, 1, 1, 12, 0, 0, 123⟩, true, true, true, true⟩ (startup "") =
        .fatal "failed printing to stdout"
          { startup "" with buf := recvIntoBuf [104, 101, 108, 108, 111] (startup "").buf })) ∧
    statusLine (numBytes [104, 101, 108, 108, 111]) ⟨127, 0, 0, 1, 54321⟩
        (utf8Lossy ([104, 101, 108, 108, 111].take BUF_SIZE)) =
      "Received 5 bytes from 127.0.0.1:54321: hello" :=
  ⟨c8_status_line_emitted _ (startup "") [104, 101, 108, 108, 111]
      ⟨127, 0, 0, 1, 54321⟩ rfl,
    by decide⟩

/-- C9: stale bytes never leak — the observable effects of an iteration
(log file content, flushed content, console output, panic message) do not
depend on the residual contents of the receive buffer: two states that
agree on everything but the buffer produce identical observations. -/
theorem c9_no_stale_buffer_leak (inp : IterInput) (s1 s2 : LoopState)
    (hobs : obs s1 = obs s2) :
    obsOutcome (step inp s1) = obsOutcome (step inp s2) := by
  obtain ⟨hw, hf, ho, he⟩ :
      s1.written = s2.written ∧ s1.flushed = s2.flushed ∧
      s1.stdout = s2.stdout ∧ s1.stderr = s2.stderr := by
    simpa [obs, Prod.ext_iff] using hobs
  rcases hr : inp.recv with ⟨d, src⟩ | e
  · cases h1 : inp.stdoutOk with
    | false =>
      rw [step_ok_stdoutFail inp s1 d src hr h1, step_ok_stdoutFail inp s2 d src hr h1]
      simp [obsOutcome, hw, hf, ho, he]
    | true =>
      cases h2 : inp.writeOk with
      | false =>
        rw [step_ok_writeFail inp s1 d src hr h1 h2, step_ok_writeFail inp s2 d src hr h1 h2]
        simp [obsOutcome, hw, hf, ho, he]
      | true =>
        cases h3 : inp.flushOk with
        | false =>
          rw [step_ok_flushFail inp s1 d src hr h1 h2 h3,
            step_ok_flushFail inp s2 d src hr h1 h2 h3]
          simp [obsOutcome, hw, hf, ho, he]
        | true =>
          rw [step_ok_success inp s1 d src hr h1 h2 h3,
            step_ok_success inp s2 d src hr h1 h2 h3]
          simp [obsOutcome, hw, hf, ho, he]
  · cases h1 : inp.stderrOk with
    | false =>
      rw [step_err_fail inp s1 e hr h1, step_err_fail inp s2 e hr h1]
      simp [obsOutcome, hw, hf, ho, he]
    | true =>
      rw [step_err_ok inp s1 e hr h1, step_err_ok inp s2 e hr h1]
      simp [obsOutcome, hw, hf, ho, he]

/-- Witness for C9: the startup state versus the same state whose buffer is
full of residual `0xFF` bytes from an earlier, longer datagram give the
same observation. -/
theorem c9_witness :
    obsOutcome (step ⟨.ok [104, 105] ⟨127, 0, 0, 1, 54321⟩,
        ⟨2024, 1, 1, 12, 0, 0, 123⟩, true, true, true, true⟩ (startup "")) =
    obsOutcome (step ⟨.ok [104, 105] ⟨127, 0, 0, 1, 54321⟩,
        ⟨2024, 1, 1, 12, 0, 0, 123⟩, true, true, true, true⟩
      { startup "" with buf := List.replicate BUF_SIZE 255 }) :=
  c9_no_stale_buffer_leak _ (startup "")
    { startup "" with buf := List.replicate BUF_SIZE 255 } rfl

/-- C10: a successfully received zero byte datagram still produces exactly
one well formed log line with empty decoded text — the iteration completes
without error or panic, the buffer is unchanged, and the entry ends in
`": "` followed directly by the newline. -/
theorem c10_empty_datagram_logged (inp : IterInput) (s : LoopState) (src : SockAddrV4)
    (hrecv : inp.recv = .ok [] src)
    (h1 : inp.stdoutOk = true) (h2 : inp.writeOk = true) (h3 : inp.flushOk = true) :
    step inp s = .next
      { buf := s.buf,
        written := s.written ++ String.mk ('[' :: fmtTimestampL inp.now ++
          "] Received from ".data ++ fmtAddrL src ++ ": ".data ++ ['\n']),
        flushed := s.written ++ String.mk ('[' :: fmtTimestampL inp.now ++
          "] Received from ".data ++ fmtAddrL src ++ ": ".data ++ ['\n']),
        stdout := s.stdout ++ [statusLine 0 src []],
        stderr := s.stderr } := by
  have hstep := step_ok_success inp s [] src hrecv h1 h2 h3
  rw [hstep]
  simp [recvIntoBuf, numBytes, utf8Lossy, utf8LossyAux, logEntry, BUF_SIZE]

/-- Witness for C10 at a zero byte datagram from `127.0.0.1:8080`, with the
resulting log line evaluated. -/
theorem c10_witness :
    step ⟨.ok [] ⟨127, 0, 0, 1, 8080⟩, ⟨2024, 1, 1, 12, 0, 0, 123⟩,
        true, true, true, true⟩ (startup "") = .next
      { buf := (startup "").buf,
        written := (startup "").written ++ String.mk ('[' ::
          fmtTimestampL ⟨2024, 1, 1, 12, 0, 0, 123⟩ ++ "] Received from ".data ++
          fmtAddrL ⟨127, 0, 0, 1, 8080⟩ ++ ": ".data ++ ['\n']),
        flushed := (startup "").written ++ String.mk ('[' ::
          fmtTimestampL ⟨2024, 1, 1, 12, 0, 0, 123⟩ ++ "] Received from ".data ++
          fmtAddrL ⟨127, 0, 0, 1, 8080⟩ ++ ": ".data ++ ['\n']),
        stdout := (startup "").stdout ++ [statusLine 0 ⟨127, 0, 0, 1, 8080⟩ []],
        stderr := (startup "").stderr } ∧
    String.mk ('[' :: fmtTimestampL ⟨2024, 1, 1, 12, 0, 0, 123⟩ ++
        "] Received from ".data ++ fmtAddrL ⟨127, 0, 0, 1, 8080⟩ ++ ": ".data ++ ['\n']) =
      "[2024-01-01 12:00:00.123] Received from 127.0.0.1:8080: \n" :=
  ⟨c10_empty_datagram_logged _ (startup "") ⟨127, 0, 0, 1, 8080⟩ rfl rfl rfl rfl,
    by decide⟩

end RustUdp
